import Mathlib

/-!
Shallow embedding of `src/src/lib.rs` (a counter library over Rust's `u32`
with wrapping arithmetic), together with proofs of its documented
algebraic contracts.

Counter values are modelled as naturals below `2^32`; Rust's
`u32::wrapping_add` / `u32::wrapping_sub` are modelled as addition and
subtraction modulo `2^32` on `Nat`.
-/

/-- The number of `u32` values, `2^32`. -/
def U32_SIZE : Nat := 4294967296

/-- Model of `u32::wrapping_add`: addition modulo `2^32`. -/
def wrapping_add (a b : Nat) : Nat := (a + b) % U32_SIZE

/-- Model of `u32::wrapping_sub`: subtraction modulo `2^32`, expressed on
`Nat` by adding the additive complement of `b` before reducing. -/
def wrapping_sub (a b : Nat) : Nat := (a + (U32_SIZE - b % U32_SIZE)) % U32_SIZE

/-- `pub fn new_counter() -> Counter { 0 }` -/
def new_counter : Nat := 0

/-- `pub fn increment(c: Counter) -> Counter { c.wrapping_add(1) }` -/
def increment (c : Nat) : Nat := wrapping_add c 1

/-- `pub fn decrement(c: Counter) -> Counter { c.wrapping_sub(1) }` -/
def decrement (c : Nat) : Nat := wrapping_sub c 1

/-- `pub fn add(c: Counter, n: Counter) -> Counter { c.wrapping_add(n) }` -/
def add (c n : Nat) : Nat := wrapping_add c n

/-- `pub fn subtract(c: Counter, n: Counter) -> Counter { c.wrapping_sub(n) }` -/
def subtract (c n : Nat) : Nat := wrapping_sub c n

/-- `pub fn reset(_c: Counter) -> Counter { 0 }` -/
def reset (_c : Nat) : Nat := 0

/-- The spec phrase "(c − n) mod 2^32" read as ordinary integer
arithmetic: subtraction in `Int` followed by the nonnegative remainder
modulo `2^32`. -/
def specModSub (c n : Nat) : Nat := (((c : Int) - (n : Int)) % (U32_SIZE : Int)).toNat

/-- The `Nat` model of `wrapping_sub` agrees with integer subtraction
modulo `2^32` whenever the subtrahend is a valid `u32` value. -/
theorem wrapping_sub_eq_specModSub (c n : Nat) (hn : n < U32_SIZE) :
    wrapping_sub c n = specModSub c n := by
  unfold wrapping_sub specModSub U32_SIZE at *
  omega

/-- C1: for every pair of counter values `c` and `n` in `[0, 2^32-1]`,
`add c n` is `(c + n) mod 2^32` and `subtract c n` is `(c - n) mod 2^32`
(integer subtraction, then nonnegative remainder). -/
theorem C1_add_subtract_contract (c n : Nat)
    (hc : c < U32_SIZE) (hn : n < U32_SIZE) :
    add c n = (c + n) % U32_SIZE ∧ subtract c n = specModSub c n := by
  refine ⟨rfl, ?_⟩
  exact wrapping_sub_eq_specModSub c n hn

/-- Witness for C1 at `c = 5`, `n = 3`. -/
theorem C1_add_subtract_contract_witness :
    add 5 3 = (5 + 3) % U32_SIZE ∧ subtract 5 3 = specModSub 5 3 :=
  C1_add_subtract_contract 5 3 (by decide) (by decide)

/-- C2: for every counter value `c`, `increment c` is `(c + 1) mod 2^32`
and `decrement c` is `(c - 1) mod 2^32`; in particular
`increment 4294967295 = 0` and `decrement 0 = 4294967295`. -/
theorem C2_increment_decrement_contract (c : Nat) (hc : c < U32_SIZE) :
    increment c = (c + 1) % U32_SIZE ∧ decrement c = specModSub c 1 ∧
    increment 4294967295 = 0 ∧ decrement 0 = 4294967295 := by
  refine ⟨rfl, wrapping_sub_eq_specModSub c 1 (by decide), by decide, by decide⟩

/-- Witness for C2 at `c = 7`. -/
theorem C2_increment_decrement_contract_witness :
    increment 7 = (7 + 1) % U32_SIZE ∧ decrement 7 = specModSub 7 1 ∧
    increment 4294967295 = 0 ∧ decrement 0 = 4294967295 :=
  C2_increment_decrement_contract 7 (by decide)

/-- C3: `new_counter` returns `0`, and for every counter value `c`,
`reset c` returns `0`, which equals `new_counter`. -/
theorem C3_new_and_reset_zero (c : Nat) :
    new_counter = 0 ∧ reset c = 0 ∧ reset c = new_counter :=
  ⟨rfl, rfl, rfl⟩

/-- C4: for every counter value `c` in `[0, 2^32-1]`,
`decrement (increment c) = c` and `increment (decrement c) = c`,
including at the wraparound boundaries. -/
theorem C4_increment_decrement_inverse (c : Nat) (hc : c < U32_SIZE) :
    decrement (increment c) = c ∧ increment (decrement c) = c := by
  unfold decrement increment wrapping_add wrapping_sub U32_SIZE at *
  omega

/-- Witness for C4 at the wraparound boundary `c = 4294967295`. -/
theorem C4_increment_decrement_inverse_witness :
    decrement (increment 4294967295) = 4294967295 ∧
    increment (decrement 4294967295) = 4294967295 :=
  C4_increment_decrement_inverse 4294967295 (by decide)

/-- C5: for all counter values `c`, `n`, `m` in `[0, 2^32-1]`,
`add (add c n) m = add c ((n + m) % 2^32)` and
`subtract (subtract c n) m = subtract c ((n + m) % 2^32)`,
unconditionally. -/
theorem C5_add_subtract_assoc (c n m : Nat)
    (hc : c < U32_SIZE) (hn : n < U32_SIZE) (hm : m < U32_SIZE) :
    add (add c n) m = add c ((n + m) % U32_SIZE) ∧
    subtract (subtract c n) m = subtract c ((n + m) % U32_SIZE) := by
  unfold add subtract wrapping_add wrapping_sub U32_SIZE at *
  omega

/-- Witness for C5 at values that overflow: `c = 4294967295`, `n = 2`,
`m = 3`. -/
theorem C5_add_subtract_assoc_witness :
    add (add 4294967295 2) 3 = add 4294967295 ((2 + 3) % U32_SIZE) ∧
    subtract (subtract 4294967295 2) 3 =
      subtract 4294967295 ((2 + 3) % U32_SIZE) :=
  C5_add_subtract_assoc 4294967295 2 3 (by decide) (by decide) (by decide)

/-- C6: for every counter value `c`, `increment c = add c 1` and
`decrement c = subtract c 1`. -/
theorem C6_single_step_refines_general (c : Nat) :
    increment c = add c 1 ∧ decrement c = subtract c 1 :=
  ⟨rfl, rfl⟩

/-- C7: for every counter value `c` in `[0, 2^32-1]`, `add c 0 = c` and
`subtract c 0 = c`. -/
theorem C7_zero_identity (c : Nat) (hc : c < U32_SIZE) :
    add c 0 = c ∧ subtract c 0 = c := by
  unfold add subtract wrapping_add wrapping_sub U32_SIZE at *
  omega

/-- Witness for C7 at `c = 42`. -/
theorem C7_zero_identity_witness : add 42 0 = 42 ∧ subtract 42 0 = 42 :=
  C7_zero_identity 42 (by decide)

/-- C8: every one of the six operations is total on counter inputs in
`[0, 2^32-1]` and returns a counter value in range; in the embedding each
operation is a total function, so the statement is that every result lies
below `2^32`. -/
theorem C8_operations_total_in_range (c n : Nat)
    (hc : c < U32_SIZE) (hn : n < U32_SIZE) :
    new_counter < U32_SIZE ∧ increment c < U32_SIZE ∧
    decrement c < U32_SIZE ∧ add c n < U32_SIZE ∧
    subtract c n < U32_SIZE ∧ reset c < U32_SIZE := by
  unfold new_counter increment decrement add subtract reset
    wrapping_add wrapping_sub U32_SIZE at *
  omega

/-- Witness for C8 at `c = 0`, `n = 4294967295`. -/
theorem C8_operations_total_in_range_witness :
    new_counter < U32_SIZE ∧ increment 0 < U32_SIZE ∧
    decrement 0 < U32_SIZE ∧ add 0 4294967295 < U32_SIZE ∧
    subtract 0 4294967295 < U32_SIZE ∧ reset 0 < U32_SIZE :=
  C8_operations_total_in_range 0 4294967295 (by decide) (by decide)

/-- C9: `add` is commutative on counter values in `[0, 2^32-1]`. -/
theorem C9_add_comm (c n : Nat) (hc : c < U32_SIZE) (hn : n < U32_SIZE) :
    add c n = add n c := by
  unfold add wrapping_add
  rw [Nat.add_comm]

/-- Witness for C9 at `c = 11`, `n = 31`. -/
theorem C9_add_comm_witness : add 11 31 = add 31 11 :=
  C9_add_comm 11 31 (by decide) (by decide)

/-- C10: `add` and `subtract` are mutual inverses for every amount: for
all counter values `c`, `n` in `[0, 2^32-1]`,
`subtract (add c n) n = c` and `add (subtract c n) n = c`, including
across wraparound. -/
theorem C10_add_subtract_inverse (c n : Nat)
    (hc : c < U32_SIZE) (hn : n < U32_SIZE) :
    subtract (add c n) n = c ∧ add (subtract c n) n = c := by
  unfold add subtract wrapping_add wrapping_sub U32_SIZE at *
  omega

/-- Witness for C10 at wraparound values `c = 4294967290`, `n = 100`. -/
theorem C10_add_subtract_inverse_witness :
    subtract (add 4294967290 100) 100 = 4294967290 ∧
    add (subtract 4294967290 100) 100 = 4294967290 :=
  C10_add_subtract_inverse 4294967290 100 (by decide) (by decide)
